import Mathlib

/-!
Shallow embedding of the upload/poll handshake of `src/app.py`
(sakae-riken-screws-detection).

External effects (S3 presigned-POST generation, the HTTP POST, S3 GET,
PIL image decoding, the clock, uuid generation) are modelled as explicit
environment records; every run additionally produces a trace of observable
events (credential requests, HTTP submissions, object fetches, sleeps) so
that statements about attempt counts and sleep intervals can be made.
-/

namespace App

/-- Raw byte strings (Python `bytes`). -/
abbrev Bytes := List Nat

/-- An abstract decoded PIL image; its identity is all the code inspects. -/
structure Img where
  val : Nat
deriving DecidableEq, Repr

/- The CONFIG dict of src/app.py, lines 22-32. -/

def BUCKET_NAME : String := "test-sakaeriken-img-recognition"

def UNLABELLED_PREFIX : String := "image/unlabelled/"

def LABELLED_PREFIX : String := "image/labelled/"

def PRESIGNED_URL_EXPIRY : Nat := 3600

def MAX_POLLING_ATTEMPTS : Nat := 30

def POLLING_INTERVAL : Nat := 2

def MAX_RETRIES : Nat := 3

def MAX_FILE_SIZE_MB : Nat := 10

def ALLOWED_EXTENSIONS : List String := ["jpg", "jpeg", "png"]

/-- Observable effects of a run of the pipeline. -/
inductive Event where
  | presign (bucket key : String) (expiresIn : Nat)
  | httpPost (url : String)
  | getObject (bucket key : String)
  | sleep (seconds : Nat)
deriving DecidableEq, Repr

def Event.isPresign : Event → Bool
  | .presign _ _ _ => true
  | _ => false

def Event.isHttpPost : Event → Bool
  | .httpPost _ => true
  | _ => false

def Event.isGetObject : Event → Bool
  | .getObject _ _ => true
  | _ => false

def Event.isSleep : Event → Bool
  | .sleep _ => true
  | _ => false

/-- Number of presigned-credential requests in a trace (= upload attempts). -/
def countPresigns (tr : List Event) : Nat := tr.countP Event.isPresign

/-- Number of HTTP multipart submissions in a trace. -/
def countPosts (tr : List Event) : Nat := tr.countP Event.isHttpPost

/-- Number of S3 object fetches in a trace (= poll attempts). -/
def countGets (tr : List Event) : Nat := tr.countP Event.isGetObject

/-- Number of sleeps in a trace. -/
def countSleeps (tr : List Event) : Nat := tr.countP Event.isSleep

/-- The value `generate_presigned_post` returns: a URL plus form fields. -/
structure PresignedPost where
  url : String
  fields : List (String × String)
deriving DecidableEq, Repr

/-- Per-attempt behaviour of the outside world seen by `upload_to_s3`:
`presignResult i = none` models `generate_presigned_post` raising on attempt
`i`; `postResult i = none` models `requests.post` raising, and `some code`
a response with HTTP status `code`. -/
structure UploadEnv where
  presignResult : Nat → Option PresignedPost
  postResult : Nat → Option Nat

/-- Outcome of one `s3_client.get_object` + `Body.read()` on a poll attempt. -/
inductive GetOutcome where
  | ok (body : Bytes)
  | noSuchKey
  | otherError
deriving DecidableEq, Repr

/-- Per-attempt behaviour of the outside world seen by `poll_for_result`:
`getResult i` is what fetching the labelled key yields on attempt `i`, and
`decode` models `Image.open(BytesIO(...))`, `none` meaning it raises. -/
structure PollEnv where
  getResult : Nat → GetOutcome
  decode : Bytes → Option Img

/-- One iteration body plus the remaining iterations of the retry loop of
`upload_to_s3` (src/app.py lines 200-228); `attempt` is the Python loop
index and `fuel` the number of iterations left, so the entry point runs it
with `attempt = 0`, `fuel = MAX_RETRIES`.  Falling out of the loop returns
the failure pair of line 229.  `time.sleep(1)` happens only in the `except`
branch and only when `attempt < MAX_RETRIES - 1` (lines 224-227). -/
def uploadLoop (env : UploadEnv) (image_key : String) :
    Nat → Nat → List Event × Bool × String
  | _, 0 => ([], false, "Failed to upload image after multiple attempts")
  | attempt, fuel + 1 =>
    let req : Event := Event.presign BUCKET_NAME image_key PRESIGNED_URL_EXPIRY
    match env.presignResult attempt with
    | none =>
      let pause : List Event :=
        if attempt < MAX_RETRIES - 1 then [Event.sleep 1] else []
      let r := uploadLoop env image_key (attempt + 1) fuel
      (req :: pause ++ r.1, r.2)
    | some resp =>
      match env.postResult attempt with
      | none =>
        let pause : List Event :=
          if attempt < MAX_RETRIES - 1 then [Event.sleep 1] else []
        let r := uploadLoop env image_key (attempt + 1) fuel
        (req :: Event.httpPost resp.url :: pause ++ r.1, r.2)
      | some code =>
        if code = 204 then
          ([req, Event.httpPost resp.url], true, "Upload successful")
        else
          let r := uploadLoop env image_key (attempt + 1) fuel
          (req :: Event.httpPost resp.url :: r.1, r.2)

/-- `upload_to_s3` of src/app.py lines 198-229. -/
def upload_to_s3 (env : UploadEnv) (image_data : Bytes) (image_key : String) :
    List Event × Bool × String :=
  uploadLoop env image_key 0 MAX_RETRIES

/-- Attempt `i` of `upload_to_s3` succeeds: the presign request does not
raise and the HTTP POST returns status 204 (src/app.py line 218). -/
def uploadHit (env : UploadEnv) (i : Nat) : Bool :=
  match env.presignResult i, env.postResult i with
  | some _, some code => code == 204
  | _, _ => false

/-- What poll attempt `i` produces: `some img` when the GET returns a body
that `Image.open` decodes, `none` otherwise (missing key, fetch error, or
undecodable body). -/
def pollImage (env : PollEnv) (i : Nat) : Option Img :=
  match env.getResult i with
  | .ok body => env.decode body
  | _ => none

/-- Poll attempt `i` yields the processed image. -/
def pollHit (env : PollEnv) (i : Nat) : Bool :=
  (pollImage env i).isSome

/-- One iteration body plus the remaining iterations of the polling loop of
`poll_for_result` (src/app.py lines 237-270); entry point runs it with
`attempt = 0`, `fuel = MAX_POLLING_ATTEMPTS`.  Both `except` branches
(NoSuchKey at line 264 and the general one at line 268) sleep
`POLLING_INTERVAL` and continue; falling out of the loop returns the
timeout pair of line 274. -/
def pollLoop (env : PollEnv) (labelled_image_key : String) :
    Nat → Nat → List Event × Option Img × String
  | _, 0 => ([], none, "Timeout waiting for results")
  | attempt, fuel + 1 =>
    let fetch : Event := Event.getObject BUCKET_NAME labelled_image_key
    match pollImage env attempt with
    | some image => ([fetch], some image, "Success")
    | none =>
      let r := pollLoop env labelled_image_key (attempt + 1) fuel
      (fetch :: Event.sleep POLLING_INTERVAL :: r.1, r.2)

/-- `poll_for_result` of src/app.py lines 232-274 (the Streamlit progress
widget calls raise nothing and touch no state the result depends on, so
they leave no event). -/
def poll_for_result (env : PollEnv) (labelled_image_key : String) :
    List Event × Option Img × String :=
  pollLoop env labelled_image_key 0 MAX_POLLING_ATTEMPTS

/-- `validate_image` of src/app.py lines 178-195.  `pil` models
`Image.open` + `image.verify()`: `some e` means they raise with message
`e`.  The Python size test `len(image_data)/(1024*1024) > 10` divides an
integer by the float 2^20, which is exact, so it equals the integer
comparison used here. -/
def validate_image (pil : Bytes → Option String) (image_data : Bytes) :
    Bool × String :=
  if image_data.length > MAX_FILE_SIZE_MB * 1024 * 1024 then
    (false, "File size exceeds " ++ toString MAX_FILE_SIZE_MB ++ "MB limit")
  else
    match pil image_data with
    | some e => (false, "Invalid image file: " ++ e)
    | none => (true, "Valid image")

/-- The dict `analyze_detection_result` builds (src/app.py lines 286-297). -/
structure DetectionResult where
  timestamp : String
  image_key : String
  status : String
  confidence : ℚ
  screws_detected : Nat
  expected_screws : Nat
  white_screws : Nat
  green_screws : Nat
  missing_screws : Nat
  defects_found : Nat
deriving DecidableEq, Repr

/-- `analyze_detection_result` of src/app.py lines 277-299; `now` is the
clock reading `datetime.now().strftime(...)` formats. -/
def analyze_detection_result (image : Img) (image_key : String)
    (now : String) : DetectionResult :=
  { timestamp := now
    image_key := image_key
    status := "PASS"
    confidence := 0.95
    screws_detected := 12
    expected_screws := 12
    white_screws := 8
    green_screws := 4
    missing_screws := 0
    defects_found := 0 }

/-- Everything outside the program that one run of `process_image` sees. -/
structure ProcessEnv where
  pil : Bytes → Option String
  uuid : String
  upload : UploadEnv
  poll : PollEnv
  now : String

/-- `process_image` of src/app.py lines 302-330, returning the run's event
trace together with the `(success, processed_image, results, message)`
tuple. -/
def process_image (env : ProcessEnv) (image_data : Bytes) :
    List Event × Bool × Option Img × Option DetectionResult × String :=
  let v := validate_image env.pil image_data
  if v.1 = false then
    ([], false, none, none, v.2)
  else
    let image_key := UNLABELLED_PREFIX ++ env.uuid ++ ".jpg"
    let labelled_image_key := LABELLED_PREFIX ++ env.uuid ++ ".jpg"
    let u := upload_to_s3 env.upload image_data image_key
    if u.2.1 = false then
      (u.1, false, none, none, u.2.2)
    else
      let p := poll_for_result env.poll labelled_image_key
      match p.2.1 with
      | none => (u.1 ++ p.1, false, none, none, p.2.2)
      | some processed_image =>
        (u.1 ++ p.1, true, some processed_image,
          some (analyze_detection_result processed_image image_key env.now),
          "Processing complete")

/-! Concrete environments used to instantiate the theorems below. -/

/-- A store where every GET succeeds but the body never decodes as an
image (a corrupt object at the labelled key). -/
def envGetOkDecodeFail : PollEnv :=
  { getResult := fun _ => GetOutcome.ok [0], decode := fun _ => none }

/-- A store where the labelled object never appears. -/
def envNeverReady : PollEnv :=
  { getResult := fun _ => GetOutcome.noSuchKey, decode := fun _ => none }

/-- A store where the labelled object appears on the second poll attempt. -/
def envReadySecond : PollEnv :=
  { getResult := fun i => if i = 0 then GetOutcome.noSuchKey
      else GetOutcome.ok [7]
    decode := fun _ => some ⟨7⟩ }

/-- An uploader world where every attempt gets a credential and the POST
returns 204. -/
def envUpload204 : UploadEnv :=
  { presignResult := fun _ => some ⟨"https://s3", []⟩
    postResult := fun _ => some 204 }

/-- An uploader world where every POST returns 200 OK. -/
def envUpload200 : UploadEnv :=
  { presignResult := fun _ => some ⟨"https://s3", []⟩
    postResult := fun _ => some 200 }

/-- An uploader world where `generate_presigned_post` always raises. -/
def envUploadPresignRaise : UploadEnv :=
  { presignResult := fun _ => none, postResult := fun _ => some 204 }

/-- An uploader world where attempt 0 raises in `requests.post` and attempt
1 succeeds with 204. -/
def envUploadSecondTry : UploadEnv :=
  { presignResult := fun _ => some ⟨"https://s3", []⟩
    postResult := fun i => if i = 0 then none else some 204 }

/-- A PIL model that accepts every byte string. -/
def pilAccepts : Bytes → Option String := fun _ => none

/-- A PIL model that rejects every byte string with a fixed message. -/
def pilRejects : Bytes → Option String := fun _ => some "cannot identify image file"

/-- A full-run world: valid image, upload succeeds at once, the labelled
object appears on the second poll attempt. -/
def envProcOk : ProcessEnv :=
  { pil := pilAccepts
    uuid := "123e4567-e89b-12d3-a456-426614174000"
    upload := envUpload204
    poll := envReadySecond
    now := "2026-10-12 00:00:00" }

/-- A world whose submitted bytes are not a decodable image. -/
def envProcBadImage : ProcessEnv :=
  { envProcOk with pil := pilRejects }

/-- A world where every upload attempt fails with HTTP 200. -/
def envProcUploadFail : ProcessEnv :=
  { envProcOk with upload := envUpload200 }

/-- A world where the upload succeeds but the labelled object never
appears. -/
def envProcTimeout : ProcessEnv :=
  { envProcOk with poll := envNeverReady }

/-- A small byte string. -/
def smallBytes : Bytes := [1, 2, 3]

/-- A byte string one byte over the 10 MB limit. -/
def bigBytes : Bytes := List.replicate (MAX_FILE_SIZE_MB * 1024 * 1024 + 1) 0

/-! Helper lemmas about the polling loop. -/

theorem pollLoop_gets_le (env : PollEnv) (key : String) :
    ∀ f a : Nat, countGets (pollLoop env key a f).1 ≤ f := by
  intro f
  induction f with
  | zero => intro a; simp [pollLoop, countGets]
  | succ f ih =>
    intro a
    cases h : pollImage env a with
    | some img =>
      simp [pollLoop, h, countGets, List.countP_cons, Event.isGetObject]
    | none =>
      simp [pollLoop, h, countGets, List.countP_cons, Event.isGetObject,
        Event.isSleep]
      have := ih (a + 1)
      simp [countGets] at this
      omega

theorem pollLoop_miss (env : PollEnv) (key : String) :
    ∀ f a : Nat, (∀ i, a ≤ i → i < a + f → pollHit env i = false) →
      (pollLoop env key a f).2 = (none, "Timeout waiting for results") ∧
        countGets (pollLoop env key a f).1 = f := by
  intro f
  induction f with
  | zero => intro a _; simp [pollLoop, countGets]
  | succ f ih =>
    intro a hmiss
    have ha : pollHit env a = false := hmiss a le_rfl (by omega)
    have h : pollImage env a = none := by
      simpa [pollHit, Option.isSome_iff_exists] using ha
    have tail := ih (a + 1) (fun i h1 h2 => hmiss i (by omega) (by omega))
    simp [pollLoop, h, countGets, List.countP_cons, Event.isGetObject,
      Event.isSleep]
    simp [countGets] at tail
    refine ⟨tail.1, by omega⟩

theorem pollLoop_firstHit (env : PollEnv) (key : String) :
    ∀ f a i : Nat, a ≤ i → i < a + f → pollHit env i = true →
      (∀ j, a ≤ j → j < i → pollHit env j = false) →
      (pollLoop env key a f).2 = (pollImage env i, "Success") ∧
        countGets (pollLoop env key a f).1 = i - a + 1 := by
  intro f
  induction f with
  | zero => intro a i h1 h2; omega
  | succ f ih =>
    intro a i h1 h2 hhit hfirst
    rcases Nat.eq_or_lt_of_le h1 with rfl | hlt
    · rcases Option.isSome_iff_exists.mp hhit with ⟨img, himg⟩
      simp [pollLoop, himg, countGets, List.countP_cons, Event.isGetObject]
    · have ha : pollHit env a = false := hfirst a le_rfl hlt
      have h : pollImage env a = none := by
        simpa [pollHit, Option.isSome_iff_exists] using ha
      have tail := ih (a + 1) i (by omega) (by omega) hhit
        (fun j hj1 hj2 => hfirst j (by omega) hj2)
      simp [pollLoop, h, countGets, List.countP_cons, Event.isGetObject,
        Event.isSleep]
      simp [countGets] at tail
      refine ⟨tail.1, by omega⟩

theorem pollLoop_hit_success (env : PollEnv) (key : String) :
    ∀ f a i : Nat, a ≤ i → i < a + f → pollHit env i = true →
      (pollLoop env key a f).2.2 = "Success" ∧
        (pollLoop env key a f).2.1.isSome = true := by
  intro f
  induction f with
  | zero => intro a i h1 h2; omega
  | succ f ih =>
    intro a i h1 h2 hhit
    cases h : pollImage env a with
    | some img => simp [pollLoop, h]
    | none =>
      have hne : a ≠ i := by
        intro rfl_eq
        rw [rfl_eq] at h
        simp [pollHit, h] at hhit
      have tail := ih (a + 1) i (by omega) (by omega) hhit
      simpa [pollLoop, h] using tail

theorem pollLoop_shape (env : PollEnv) (key : String) :
    ∀ f a : Nat,
      ((pollLoop env key a f).2.1.isSome = true ∧
        (pollLoop env key a f).2.2 = "Success") ∨
      ((pollLoop env key a f).2.1 = none ∧
        (pollLoop env key a f).2.2 = "Timeout waiting for results") := by
  intro f
  induction f with
  | zero => intro a; simp [pollLoop]
  | succ f ih =>
    intro a
    cases h : pollImage env a with
    | some img => simp [pollLoop, h]
    | none => simpa [pollLoop, h] using ih (a + 1)

theorem pollLoop_sleep (env : PollEnv) (key : String) :
    ∀ f a n : Nat, Event.sleep n ∈ (pollLoop env key a f).1 →
      n = POLLING_INTERVAL := by
  intro f
  induction f with
  | zero => intro a n hm; simp [pollLoop] at hm
  | succ f ih =>
    intro a n hm
    cases h : pollImage env a with
    | some img =>
      rw [pollLoop, h] at hm
      simp at hm
    | none =>
      rw [pollLoop, h] at hm
      simp at hm
      rcases hm with h1 | h2
      · exact h1
      · exact ih (a + 1) n h2

theorem pollLoop_get_key (env : PollEnv) (key : String) :
    ∀ f a : Nat, ∀ b k : String,
      Event.getObject b k ∈ (pollLoop env key a f).1 →
      b = BUCKET_NAME ∧ k = key := by
  intro f
  induction f with
  | zero => intro a b k hm; simp [pollLoop] at hm
  | succ f ih =>
    intro a b k hm
    cases h : pollImage env a with
    | some img =>
      rw [pollLoop, h] at hm
      simp at hm
      exact ⟨hm.1, hm.2⟩
    | none =>
      rw [pollLoop, h] at hm
      simp at hm
      rcases hm with ⟨h1, h2⟩ | h3
      · exact ⟨h1, h2⟩
      · exact ih (a + 1) b k h3

theorem pollLoop_events (env : PollEnv) (key : String) :
    ∀ f a : Nat, ∀ e : Event, e ∈ (pollLoop env key a f).1 →
      e.isGetObject = true ∨ e.isSleep = true := by
  intro f
  induction f with
  | zero => intro a e hm; simp [pollLoop] at hm
  | succ f ih =>
    intro a e hm
    cases h : pollImage env a with
    | some img =>
      rw [pollLoop, h] at hm
      simp at hm
      simp [hm, Event.isGetObject]
    | none =>
      rw [pollLoop, h] at hm
      simp at hm
      rcases hm with rfl | rfl | h3
      · simp [Event.isGetObject]
      · simp [Event.isSleep]
      · exact ih (a + 1) e h3

/-! Helper lemmas about the upload retry loop. -/

theorem uploadLoop_presigns_le (env : UploadEnv) (key : String) :
    ∀ f a : Nat, countPresigns (uploadLoop env key a f).1 ≤ f := by
  intro f
  induction f with
  | zero => intro a; simp [uploadLoop, countPresigns]
  | succ f ih =>
    intro a
    have tail := ih (a + 1)
    simp [countPresigns] at tail
    cases hp : env.presignResult a with
    | none =>
      by_cases hw : a < MAX_RETRIES - 1 <;>
        simp [uploadLoop, hp, hw, countPresigns, List.countP_cons,
          Event.isPresign, Event.isSleep] <;> omega
    | some resp =>
      cases hq : env.postResult a with
      | none =>
        by_cases hw : a < MAX_RETRIES - 1 <;>
          simp [uploadLoop, hp, hq, hw, countPresigns, List.countP_cons,
            Event.isPresign, Event.isSleep, Event.isHttpPost] <;> omega
      | some code =>
        by_cases hc : code = 204
        · simp [uploadLoop, hp, hq, hc, countPresigns, List.countP_cons,
            Event.isPresign, Event.isHttpPost]
        · simp [uploadLoop, hp, hq, hc, countPresigns, List.countP_cons,
            Event.isPresign, Event.isHttpPost]
          omega

theorem uploadLoop_miss (env : UploadEnv) (key : String) :
    ∀ f a : Nat, (∀ i, a ≤ i → i < a + f → uploadHit env i = false) →
      (uploadLoop env key a f).2 =
        (false, "Failed to upload image after multiple attempts") ∧
      countPresigns (uploadLoop env key a f).1 = f := by
  intro f
  induction f with
  | zero => intro a _; simp [uploadLoop, countPresigns]
  | succ f ih =>
    intro a hmiss
    obtain ⟨t1, t2⟩ := ih (a + 1) (fun i h1 h2 => hmiss i (by omega) (by omega))
    simp [countPresigns] at t2
    have ha : uploadHit env a = false := hmiss a le_rfl (by omega)
    cases hp : env.presignResult a with
    | none =>
      by_cases hw : a < MAX_RETRIES - 1 <;>
        simp [uploadLoop, hp, hw, countPresigns, List.countP_cons,
          Event.isPresign, Event.isSleep, t1] <;> omega
    | some resp =>
      cases hq : env.postResult a with
      | none =>
        by_cases hw : a < MAX_RETRIES - 1 <;>
          simp [uploadLoop, hp, hq, hw, countPresigns, List.countP_cons,
            Event.isPresign, Event.isSleep, Event.isHttpPost, t1] <;> omega
      | some code =>
        have hc : code ≠ 204 := by
          intro h204
          rw [uploadHit, hp, hq, h204] at ha
          simp at ha
        simp [uploadLoop, hp, hq, hc, countPresigns, List.countP_cons,
          Event.isPresign, Event.isHttpPost, t1]
        omega

theorem uploadLoop_firstHit (env : UploadEnv) (key : String) :
    ∀ f a i : Nat, a ≤ i → i < a + f → uploadHit env i = true →
      (∀ j, a ≤ j → j < i → uploadHit env j = false) →
      (uploadLoop env key a f).2 = (true, "Upload successful") ∧
        countPresigns (uploadLoop env key a f).1 = i - a + 1 := by
  intro f
  induction f with
  | zero => intro a i h1 h2; omega
  | succ f ih =>
    intro a i h1 h2 hhit hfirst
    rcases Nat.eq_or_lt_of_le h1 with rfl | hlt
    · rcases hp : env.presignResult a with _ | resp
      · rw [uploadHit, hp] at hhit; simp at hhit
      · rcases hq : env.postResult a with _ | code
        · rw [uploadHit, hp, hq] at hhit; simp at hhit
        · have hc : code = 204 := by
            rw [uploadHit, hp, hq] at hhit
            simpa using hhit
          simp [uploadLoop, hp, hq, hc, countPresigns, List.countP_cons,
            Event.isPresign, Event.isHttpPost]
    · have ha : uploadHit env a = false := hfirst a le_rfl hlt
      obtain ⟨t1, t2⟩ := ih (a + 1) i (by omega) (by omega) hhit
        (fun j hj1 hj2 => hfirst j (by omega) hj2)
      simp [countPresigns] at t2
      cases hp : env.presignResult a with
      | none =>
        by_cases hw : a < MAX_RETRIES - 1 <;>
          simp [uploadLoop, hp, hw, countPresigns, List.countP_cons,
            Event.isPresign, Event.isSleep, t1] <;> omega
      | some resp =>
        cases hq : env.postResult a with
        | none =>
          by_cases hw : a < MAX_RETRIES - 1 <;>
            simp [uploadLoop, hp, hq, hw, countPresigns, List.countP_cons,
              Event.isPresign, Event.isSleep, Event.isHttpPost, t1] <;> omega
        | some code =>
          have hc : code ≠ 204 := by
            intro h204
            rw [uploadHit, hp, hq, h204] at ha
            simp at ha
          simp [uploadLoop, hp, hq, hc, countPresigns, List.countP_cons,
            Event.isPresign, Event.isHttpPost, t1]
          omega

theorem uploadLoop_hit_success (env : UploadEnv) (key : String) :
    ∀ f a i : Nat, a ≤ i → i < a + f → uploadHit env i = true →
      (uploadLoop env key a f).2.1 = true := by
  intro f
  induction f with
  | zero => intro a i h1 h2; omega
  | succ f ih =>
    intro a i h1 h2 hhit
    cases hp : env.presignResult a with
    | none =>
      have hne : a ≠ i := by
        intro rfl_eq
        rw [rfl_eq] at hp
        rw [uploadHit, hp] at hhit
        simp at hhit
      have tail := ih (a + 1) i (by omega) (by omega) hhit
      simpa [uploadLoop, hp] using tail
    | some resp =>
      cases hq : env.postResult a with
      | none =>
        have hne : a ≠ i := by
          intro rfl_eq
          rw [rfl_eq] at hp hq
          rw [uploadHit, hp, hq] at hhit
          simp at hhit
        have tail := ih (a + 1) i (by omega) (by omega) hhit
        simpa [uploadLoop, hp, hq] using tail
      | some code =>
        by_cases hc : code = 204
        · simp [uploadLoop, hp, hq, hc]
        · have hne : a ≠ i := by
            intro rfl_eq
            rw [rfl_eq] at hp hq
            rw [uploadHit, hp, hq] at hhit
            simp [hc] at hhit
          have tail := ih (a + 1) i (by omega) (by omega) hhit
          simpa [uploadLoop, hp, hq, hc] using tail

theorem uploadLoop_shape (env : UploadEnv) (key : String) :
    ∀ f a : Nat,
      (uploadLoop env key a f).2 = (true, "Upload successful") ∨
      (uploadLoop env key a f).2 =
        (false, "Failed to upload image after multiple attempts") := by
  intro f
  induction f with
  | zero => intro a; simp [uploadLoop]
  | succ f ih =>
    intro a
    cases hp : env.presignResult a with
    | none => simpa [uploadLoop, hp] using ih (a + 1)
    | some resp =>
      cases hq : env.postResult a with
      | none => simpa [uploadLoop, hp, hq] using ih (a + 1)
      | some code =>
        by_cases hc : code = 204
        · simp [uploadLoop, hp, hq, hc]
        · simpa [uploadLoop, hp, hq, hc] using ih (a + 1)

theorem uploadLoop_sleep (env : UploadEnv) (key : String) :
    ∀ f a n : Nat, Event.sleep n ∈ (uploadLoop env key a f).1 → n = 1 := by
  intro f
  induction f with
  | zero => intro a n hm; simp [uploadLoop] at hm
  | succ f ih =>
    intro a n hm
    cases hp : env.presignResult a with
    | none =>
      rw [uploadLoop, hp] at hm
      by_cases hw : a < MAX_RETRIES - 1 <;> simp [hw] at hm <;>
        [rcases hm with h1 | h2; skip] <;>
        first
          | exact h1
          | exact ih (a + 1) n h2
          | exact ih (a + 1) n hm
    | some resp =>
      cases hq : env.postResult a with
      | none =>
        rw [uploadLoop, hp, hq] at hm
        by_cases hw : a < MAX_RETRIES - 1 <;> simp [hw] at hm <;>
          [rcases hm with h1 | h2; skip] <;>
          first
            | exact h1
            | exact ih (a + 1) n h2
            | exact ih (a + 1) n hm
      | some code =>
        by_cases hc : code = 204
        · rw [uploadLoop, hp, hq] at hm
          simp [hc] at hm
        · rw [uploadLoop, hp, hq] at hm
          simp [hc] at hm
          exact ih (a + 1) n hm

theorem uploadLoop_presign_eq (env : UploadEnv) (key : String) :
    ∀ f a : Nat, ∀ b k : String, ∀ x : Nat,
      Event.presign b k x ∈ (uploadLoop env key a f).1 →
      b = BUCKET_NAME ∧ k = key ∧ x = PRESIGNED_URL_EXPIRY := by
  intro f
  induction f with
  | zero => intro a b k x hm; simp [uploadLoop] at hm
  | succ f ih =>
    intro a b k x hm
    cases hp : env.presignResult a with
    | none =>
      rw [uploadLoop, hp] at hm
      by_cases hw : a < MAX_RETRIES - 1 <;> simp [hw] at hm <;>
        [rcases hm with ⟨h1, h2, h3⟩ | h4; rcases hm with ⟨h1, h2, h3⟩ | h4] <;>
        first
          | exact ⟨h1, h2, h3⟩
          | exact ih (a + 1) b k x h4
    | some resp =>
      cases hq : env.postResult a with
      | none =>
        rw [uploadLoop, hp, hq] at hm
        by_cases hw : a < MAX_RETRIES - 1 <;> simp [hw] at hm <;>
          [rcases hm with ⟨h1, h2, h3⟩ | h4;
            rcases hm with ⟨h1, h2, h3⟩ | h4] <;>
          first
            | exact ⟨h1, h2, h3⟩
            | exact ih (a + 1) b k x h4
      | some code =>
        by_cases hc : code = 204
        · rw [uploadLoop, hp, hq] at hm
          simp [hc] at hm
          exact ⟨hm.1, hm.2.1, hm.2.2⟩
        · rw [uploadLoop, hp, hq] at hm
          simp [hc] at hm
          rcases hm with ⟨h1, h2, h3⟩ | h4
          · exact ⟨h1, h2, h3⟩
          · exact ih (a + 1) b k x h4

theorem uploadLoop_events (env : UploadEnv) (key : String) :
    ∀ f a : Nat, ∀ e : Event, e ∈ (uploadLoop env key a f).1 →
      e.isPresign = true ∨ e.isHttpPost = true ∨ e.isSleep = true := by
  intro f
  induction f with
  | zero => intro a e hm; simp [uploadLoop] at hm
  | succ f ih =>
    intro a e hm
    cases hp : env.presignResult a with
    | none =>
      rw [uploadLoop, hp] at hm
      by_cases hw : a < MAX_RETRIES - 1 <;> simp [hw] at hm <;>
        [rcases hm with rfl | rfl | h4; rcases hm with rfl | h4] <;>
        first
          | exact ih (a + 1) e h4
          | simp [Event.isPresign, Event.isHttpPost, Event.isSleep]
    | some resp =>
      cases hq : env.postResult a with
      | none =>
        rw [uploadLoop, hp, hq] at hm
        by_cases hw : a < MAX_RETRIES - 1 <;> simp [hw] at hm <;>
          [rcases hm with rfl | rfl | rfl | h4; rcases hm with rfl | rfl | h4] <;>
          first
            | exact ih (a + 1) e h4
            | simp [Event.isPresign, Event.isHttpPost, Event.isSleep]
      | some code =>
        by_cases hc : code = 204
        · rw [uploadLoop, hp, hq] at hm
          simp [hc] at hm
          rcases hm with rfl | rfl <;>
            simp [Event.isPresign, Event.isHttpPost, Event.isSleep]
        · rw [uploadLoop, hp, hq] at hm
          simp [hc] at hm
          rcases hm with rfl | rfl | h4 <;>
            first
              | exact ih (a + 1) e h4
              | simp [Event.isPresign, Event.isHttpPost, Event.isSleep]

theorem uploadLoop_posts (env : UploadEnv) (key : String) :
    ∀ f a : Nat,
      countPosts (uploadLoop env key a f).1 =
        (List.range' a (countPresigns (uploadLoop env key a f).1)).countP
          (fun i => (env.presignResult i).isSome) := by
  intro f
  induction f with
  | zero => intro a; simp [uploadLoop, countPosts, countPresigns]
  | succ f ih =>
    intro a
    have tail := ih (a + 1)
    cases hp : env.presignResult a with
    | none =>
      by_cases hw : a < MAX_RETRIES - 1 <;>
        simp [uploadLoop, hp, hw, countPosts, countPresigns,
          List.countP_cons, Event.isPresign, Event.isSleep,
          Event.isHttpPost, List.range'_succ] at tail ⊢ <;>
        simpa [countPosts, countPresigns, hp] using tail
    | some resp =>
      cases hq : env.postResult a with
      | none =>
        by_cases hw : a < MAX_RETRIES - 1 <;>
          simp [uploadLoop, hp, hq, hw, countPosts, countPresigns,
            List.countP_cons, Event.isPresign, Event.isSleep,
            Event.isHttpPost, List.range'_succ] at tail ⊢ <;>
          simpa [countPosts, countPresigns, hp] using tail
      | some code =>
        by_cases hc : code = 204
        · simp [uploadLoop, hp, hq, hc, countPosts, countPresigns,
            List.countP_cons, Event.isPresign, Event.isHttpPost,
            List.range'_succ]
        · simp [uploadLoop, hp, hq, hc, countPosts, countPresigns,
            List.countP_cons, Event.isPresign, Event.isHttpPost,
            List.range'_succ] at tail ⊢
          simpa [countPosts, countPresigns, hp] using tail

/-! Characterizations at the entry points. -/

theorem uploadLoop_gets_zero (env : UploadEnv) (key : String) (f a : Nat) :
    countGets (uploadLoop env key a f).1 = 0 := by
  rw [countGets, List.countP_eq_zero]
  intro e he
  rcases uploadLoop_events env key f a e he with h | h | h <;>
    cases e <;>
      simp [Event.isPresign, Event.isHttpPost, Event.isSleep,
        Event.isGetObject] at h ⊢

theorem upload_success_iff (env : UploadEnv) (d : Bytes) (k : String) :
    (upload_to_s3 env d k).2.1 = true ↔
      ∃ i, i < MAX_RETRIES ∧ uploadHit env i = true := by
  constructor
  · intro hs
    by_contra hno
    push_neg at hno
    have hmiss : ∀ i, 0 ≤ i → i < 0 + MAX_RETRIES → uploadHit env i = false := by
      intro i _ hi
      simpa using hno i (by omega)
    have hfail := (uploadLoop_miss env k MAX_RETRIES 0 hmiss).1
    rw [upload_to_s3] at hs
    rw [Prod.ext_iff] at hfail
    rw [hfail.1] at hs
    exact absurd hs (by simp)
  · rintro ⟨i, hi, hhit⟩
    exact uploadLoop_hit_success env k MAX_RETRIES 0 i (by omega) (by omega) hhit

theorem poll_image_none_iff (env : PollEnv) (k : String) :
    (poll_for_result env k).2.1 = none ↔
      ∀ i, i < MAX_POLLING_ATTEMPTS → pollHit env i = false := by
  constructor
  · intro hs
    by_contra hno
    push_neg at hno
    rcases hno with ⟨i, hi, hhit⟩
    have := (pollLoop_hit_success env k MAX_POLLING_ATTEMPTS 0 i (by omega)
      (by omega) (by simpa using hhit)).2
    rw [poll_for_result] at hs
    rw [hs] at this
    simp at this
  · intro hmiss
    have := (pollLoop_miss env k MAX_POLLING_ATTEMPTS 0
      (fun i h1 h2 => hmiss i (by omega))).1
    rw [poll_for_result, this]

theorem process_trace_cases (env : ProcessEnv) (d : Bytes) :
    (process_image env d).1 = [] ∨
    (process_image env d).1 =
      (upload_to_s3 env.upload d (UNLABELLED_PREFIX ++ env.uuid ++ ".jpg")).1 ∨
    (process_image env d).1 =
      (upload_to_s3 env.upload d (UNLABELLED_PREFIX ++ env.uuid ++ ".jpg")).1 ++
      (poll_for_result env.poll (LABELLED_PREFIX ++ env.uuid ++ ".jpg")).1 := by
  by_cases hv : (validate_image env.pil d).1 = false
  · left
    simp [process_image, hv]
  · by_cases hb : (upload_to_s3 env.upload d
      (UNLABELLED_PREFIX ++ env.uuid ++ ".jpg")).2.1 = false
    · right; left
      simp [process_image, hv, hb]
    · right; right
      cases hmp : (poll_for_result env.poll
          (LABELLED_PREFIX ++ env.uuid ++ ".jpg")).2.1 with
      | none => simp [process_image, hv, hb, hmp]
      | some img => simp [process_image, hv, hb, hmp]

/-! Claim theorems. -/

/-- Claim C5: for every processed image and every image key,
`analyze_detection_result` returns the same hard-coded placeholder metrics
(status PASS, confidence 0.95, 12/12 screws, 8 white, 4 green, 0 missing,
0 defects), independent of the image; only the timestamp and the echoed
`image_key` vary. -/
theorem C5_mock_metrics (image other : Img) (image_key now : String) :
    analyze_detection_result image image_key now =
      { timestamp := now
        image_key := image_key
        status := "PASS"
        confidence := 0.95
        screws_detected := 12
        expected_screws := 12
        white_screws := 8
        green_screws := 4
        missing_screws := 0
        defects_found := 0 } ∧
    analyze_detection_result image image_key now =
      analyze_detection_result other image_key now :=
  ⟨rfl, rfl⟩

/-- Claim C9: `poll_for_result` never surfaces a fetch error: whatever the
store does on each attempt (missing key, other error, undecodable body),
the result is either an image with message Success, or the timeout pair
`(none, "Timeout waiting for results")` — no error result exists. -/
theorem C9_no_error_surfaced (env : PollEnv) (key : String) :
    ((poll_for_result env key).2.1.isSome = true ∧
      (poll_for_result env key).2.2 = "Success") ∨
    ((poll_for_result env key).2.1 = none ∧
      (poll_for_result env key).2.2 = "Timeout waiting for results") :=
  pollLoop_shape env key MAX_POLLING_ATTEMPTS 0

/-- Claim C7: the poll loop always terminates within the attempt bound;
for every behaviour of the store the trace holds at most
`MAX_POLLING_ATTEMPTS` (30) fetches, and exactly 30 when no attempt ever
produces the image — the bound is exhausted, never looped past. -/
theorem C7_poll_terminates (env : PollEnv) (key : String) :
    countGets (poll_for_result env key).1 ≤ MAX_POLLING_ATTEMPTS ∧
    ((∀ i, i < MAX_POLLING_ATTEMPTS → pollHit env i = false) →
      countGets (poll_for_result env key).1 = MAX_POLLING_ATTEMPTS) := by
  refine ⟨pollLoop_gets_le env key MAX_POLLING_ATTEMPTS 0, fun hmiss => ?_⟩
  exact (pollLoop_miss env key MAX_POLLING_ATTEMPTS 0
    (fun i h1 h2 => hmiss i (by omega))).2

/-- Claim C7 witness: with a store where the object never appears, the
poll loop performs exactly 30 fetches. -/
theorem C7_poll_terminates_witness :
    countGets (poll_for_result envNeverReady "image/labelled/x.jpg").1 ≤
      MAX_POLLING_ATTEMPTS ∧
    countGets (poll_for_result envNeverReady "image/labelled/x.jpg").1 =
      MAX_POLLING_ATTEMPTS :=
  ⟨(C7_poll_terminates envNeverReady "image/labelled/x.jpg").1,
    (C7_poll_terminates envNeverReady "image/labelled/x.jpg").2
      (fun i _ => rfl)⟩

/-- Claim C8: an upload attempt counts as successful exactly when the POST
returned status 204: the function succeeds iff some attempt within the
retry bound had a credential and got 204, and an attempt is a hit iff its
status was literally 204 — so 200 OK is a failed attempt. -/
theorem C8_success_is_204 (env : UploadEnv) (d : Bytes) (k : String) :
    ((upload_to_s3 env d k).2.1 = true ↔
      ∃ i, i < MAX_RETRIES ∧ uploadHit env i = true) ∧
    (∀ i, uploadHit env i = true ↔
      ∃ resp code, env.presignResult i = some resp ∧
        env.postResult i = some code ∧ code = 204) := by
  refine ⟨upload_success_iff env d k, fun i => ?_⟩
  rw [uploadHit]
  rcases hp : env.presignResult i with _ | resp <;>
    rcases hq : env.postResult i with _ | code <;>
      simp [beq_iff_eq]

/-- Claim C8 witness: when every POST returns 200 OK, the upload fails
outright, and one 204 attempt makes it succeed. -/
theorem C8_success_is_204_witness :
    (upload_to_s3 envUpload200 smallBytes "image/unlabelled/x.jpg").2.1 =
      false ∧
    (upload_to_s3 envUpload204 smallBytes "image/unlabelled/x.jpg").2.1 =
      true := by
  constructor
  · have h := (C8_success_is_204 envUpload200 smallBytes
      "image/unlabelled/x.jpg").1
    rcases hb : (upload_to_s3 envUpload200 smallBytes
        "image/unlabelled/x.jpg").2.1 with _ | _
    · rfl
    · rcases h.mp hb with ⟨i, _, hhit⟩
      rw [show uploadHit envUpload200 i = false from rfl] at hhit
      exact absurd hhit (by simp)
  · exact (C8_success_is_204 envUpload204 smallBytes
      "image/unlabelled/x.jpg").1.mpr ⟨0, by decide, rfl⟩

/-- Claim C1 counterexample: a store where every GET succeeds but the body
never decodes as an image: the first attempt's fetch succeeds, yet
`poll_for_result` returns the timeout pair, not the Success pair the claim
promises for the first attempt whose get succeeds. -/
theorem C1_counterexample :
    envGetOkDecodeFail.getResult 0 = GetOutcome.ok [0] ∧
    (poll_for_result envGetOkDecodeFail "image/labelled/x.jpg").2 =
      (none, "Timeout waiting for results") ∧
    (poll_for_result envGetOkDecodeFail "image/labelled/x.jpg").2.2 ≠
      "Success" := by
  refine ⟨rfl, rfl, ?_⟩
  intro h
  rw [show (poll_for_result envGetOkDecodeFail "image/labelled/x.jpg").2.2 =
    "Timeout waiting for results" from rfl] at h
  exact absurd h (by decide)

/-- Claim C1 as amended: at most 30 fetches; the image and Success are
returned on the first attempt that both fetches the object and decodes it
as an image; the pair `(none, "Timeout waiting for results")` is returned
exactly when all 30 attempts fail to produce a decoded image. -/
theorem C1_poll_result (env : PollEnv) (key : String) :
    countGets (poll_for_result env key).1 ≤ MAX_POLLING_ATTEMPTS ∧
    (∀ i, i < MAX_POLLING_ATTEMPTS → pollHit env i = true →
      (∀ j, j < i → pollHit env j = false) →
      (poll_for_result env key).2 = (pollImage env i, "Success") ∧
      countGets (poll_for_result env key).1 = i + 1) ∧
    ((∀ i, i < MAX_POLLING_ATTEMPTS → pollHit env i = false) →
      (poll_for_result env key).2 = (none, "Timeout waiting for results") ∧
      countGets (poll_for_result env key).1 = MAX_POLLING_ATTEMPTS) := by
  refine ⟨pollLoop_gets_le env key MAX_POLLING_ATTEMPTS 0, ?_, ?_⟩
  · intro i hi hhit hfirst
    have h := pollLoop_firstHit env key MAX_POLLING_ATTEMPTS 0 i (by omega)
      (by omega) hhit (fun j _ hj2 => hfirst j hj2)
    simpa using h
  · intro hmiss
    exact pollLoop_miss env key MAX_POLLING_ATTEMPTS 0
      (fun i h1 h2 => hmiss i (by omega))

/-- Claim C1 witness: with the object appearing on the second attempt, the
poll returns that image with Success after exactly two fetches. -/
theorem C1_poll_result_witness :
    (poll_for_result envReadySecond "image/labelled/x.jpg").2 =
      (pollImage envReadySecond 1, "Success") ∧
    countGets (poll_for_result envReadySecond "image/labelled/x.jpg").1 =
      1 + 1 :=
  (C1_poll_result envReadySecond "image/labelled/x.jpg").2.1 1 (by decide)
    rfl
    (fun j hj => by
      have hj0 : j = 0 := by omega
      rw [hj0]; rfl)

/-- Claim C4 counterexample: when every attempt fails with a non-204 HTTP
status (here 200), the upload loop runs its three attempts with no sleep
at all between them — the program does not sleep between consecutive
upload attempts in this case. -/
theorem C4_counterexample :
    countPresigns
      (upload_to_s3 envUpload200 smallBytes "image/unlabelled/x.jpg").1 = 3 ∧
    countSleeps
      (upload_to_s3 envUpload200 smallBytes "image/unlabelled/x.jpg").1 = 0 :=
  ⟨rfl, rfl⟩

/-- Claim C4 as amended: no sleep interval ever grows with the attempt
number: every sleep in an upload trace is the fixed 1 second (it occurs
only after an exception on a non-final attempt; a non-204 response retries
without sleeping), and every sleep in a poll trace is the fixed
`POLLING_INTERVAL` (2 seconds). -/
theorem C4_fixed_sleeps (uenv : UploadEnv) (penv : PollEnv) (d : Bytes)
    (k1 k2 : String) :
    (∀ n, Event.sleep n ∈ (upload_to_s3 uenv d k1).1 → n = 1) ∧
    (∀ n, Event.sleep n ∈ (poll_for_result penv k2).1 →
      n = POLLING_INTERVAL) :=
  ⟨fun n hm => uploadLoop_sleep uenv k1 MAX_RETRIES 0 n hm,
    fun n hm => pollLoop_sleep penv k2 MAX_POLLING_ATTEMPTS 0 n hm⟩

/-- Claim C4 witness: a world with an exception on upload attempt 0 and a
poll hit on attempt 1 produces sleeps, and they are 1 s and 2 s. -/
theorem C4_fixed_sleeps_witness :
    Event.sleep 1 ∈
      (upload_to_s3 envUploadSecondTry smallBytes "image/unlabelled/x.jpg").1 ∧
    Event.sleep POLLING_INTERVAL ∈
      (poll_for_result envReadySecond "image/labelled/x.jpg").1 ∧
    (1 : Nat) = 1 ∧ POLLING_INTERVAL = 2 := by
  refine ⟨by decide, by decide, ?_, rfl⟩
  exact (C4_fixed_sleeps envUploadSecondTry envReadySecond smallBytes
    "image/unlabelled/x.jpg" "image/labelled/x.jpg").1 1 (by decide)

/-- Claim C2 counterexample: when `generate_presigned_post` raises on every
attempt, the loop runs its three attempts (three credential requests) yet
performs zero HTTP submissions — refuting that each attempt performs
exactly one HTTP multipart submission. -/
theorem C2_counterexample :
    countPresigns (upload_to_s3 envUploadPresignRaise smallBytes
      "image/unlabelled/x.jpg").1 = 3 ∧
    countPosts (upload_to_s3 envUploadPresignRaise smallBytes
      "image/unlabelled/x.jpg").1 = 0 ∧
    (upload_to_s3 envUploadPresignRaise smallBytes
      "image/unlabelled/x.jpg").2 =
      (false, "Failed to upload image after multiple attempts") :=
  ⟨rfl, rfl, rfl⟩

/-- Claim C2 as amended: at most `MAX_RETRIES` (3) attempts; every
credential request is a fresh time-limited presigned POST for the given
key and bucket; each executed attempt performs exactly one HTTP submission
when its credential request succeeds and none when it raises; the function
returns `(true, "Upload successful")` on the first successful attempt (not
running later ones) and the failure pair when all attempts fail. -/
theorem C2_upload_result (env : UploadEnv) (d : Bytes) (k : String) :
    countPresigns (upload_to_s3 env d k).1 ≤ MAX_RETRIES ∧
    (∀ b kk x, Event.presign b kk x ∈ (upload_to_s3 env d k).1 →
      b = BUCKET_NAME ∧ kk = k ∧ x = PRESIGNED_URL_EXPIRY) ∧
    countPosts (upload_to_s3 env d k).1 =
      (List.range' 0 (countPresigns (upload_to_s3 env d k).1)).countP
        (fun i => (env.presignResult i).isSome) ∧
    (∀ i, i < MAX_RETRIES → uploadHit env i = true →
      (∀ j, j < i → uploadHit env j = false) →
      (upload_to_s3 env d k).2 = (true, "Upload successful") ∧
      countPresigns (upload_to_s3 env d k).1 = i + 1) ∧
    ((∀ i, i < MAX_RETRIES → uploadHit env i = false) →
      (upload_to_s3 env d k).2 =
        (false, "Failed to upload image after multiple attempts")) := by
  refine ⟨uploadLoop_presigns_le env k MAX_RETRIES 0,
    fun b kk x hm => uploadLoop_presign_eq env k MAX_RETRIES 0 b kk x hm,
    uploadLoop_posts env k MAX_RETRIES 0, ?_, ?_⟩
  · intro i hi hhit hfirst
    have h := uploadLoop_firstHit env k MAX_RETRIES 0 i (by omega) (by omega)
      hhit (fun j _ hj2 => hfirst j hj2)
    simpa using h
  · intro hmiss
    exact (uploadLoop_miss env k MAX_RETRIES 0
      (fun i h1 h2 => hmiss i (by omega))).1

/-- Claim C2 witness: with `requests.post` raising on attempt 0 and
returning 204 on attempt 1, the upload succeeds after exactly two
credential requests. -/
theorem C2_upload_result_witness :
    (upload_to_s3 envUploadSecondTry smallBytes
      "image/unlabelled/x.jpg").2 = (true, "Upload successful") ∧
    countPresigns (upload_to_s3 envUploadSecondTry smallBytes
      "image/unlabelled/x.jpg").1 = 1 + 1 :=
  (C2_upload_result envUploadSecondTry smallBytes
    "image/unlabelled/x.jpg").2.2.2.1 1 (by decide) rfl
    (fun j hj => by
      have hj0 : j = 0 := by omega
      rw [hj0]; rfl)

/-- Claim C3: in every run of `process_image`, the unlabelled key every
credential request carries and the labelled key every fetch polls are both
the shared identifier `uuid ++ ".jpg"` behind their respective prefixes —
the two keys differ only in their prefix. -/
theorem C3_key_derivation (env : ProcessEnv) (d : Bytes) :
    ∃ ident, ident = env.uuid ++ ".jpg" ∧
      (∀ b k x, Event.presign b k x ∈ (process_image env d).1 →
        k = UNLABELLED_PREFIX ++ ident) ∧
      (∀ b k, Event.getObject b k ∈ (process_image env d).1 →
        k = LABELLED_PREFIX ++ ident) := by
  refine ⟨env.uuid ++ ".jpg", rfl, ?_, ?_⟩ <;>
    have tc := process_trace_cases env d
  · intro b k x hm
    rcases tc with h0 | h1 | h2
    · rw [h0] at hm
      simp at hm
    · rw [h1] at hm
      have h := uploadLoop_presign_eq env.upload
        (UNLABELLED_PREFIX ++ env.uuid ++ ".jpg") MAX_RETRIES 0 b k x hm
      rw [h.2.1, String.append_assoc]
    · rw [h2] at hm
      rcases List.mem_append.mp hm with hmu | hmp
      · have h := uploadLoop_presign_eq env.upload
          (UNLABELLED_PREFIX ++ env.uuid ++ ".jpg") MAX_RETRIES 0 b k x hmu
        rw [h.2.1, String.append_assoc]
      · rcases pollLoop_events env.poll
          (LABELLED_PREFIX ++ env.uuid ++ ".jpg") MAX_POLLING_ATTEMPTS 0
          (Event.presign b k x) hmp with h | h <;>
          simp [Event.isGetObject, Event.isSleep] at h
  · intro b k hm
    rcases tc with h0 | h1 | h2
    · rw [h0] at hm
      simp at hm
    · rw [h1] at hm
      rcases uploadLoop_events env.upload
        (UNLABELLED_PREFIX ++ env.uuid ++ ".jpg") MAX_RETRIES 0
        (Event.getObject b k) hm with h | h | h <;>
        simp [Event.isPresign, Event.isHttpPost, Event.isSleep] at h
    · rw [h2] at hm
      rcases List.mem_append.mp hm with hmu | hmp
      · rcases uploadLoop_events env.upload
          (UNLABELLED_PREFIX ++ env.uuid ++ ".jpg") MAX_RETRIES 0
          (Event.getObject b k) hmu with h | h | h <;>
          simp [Event.isPresign, Event.isHttpPost, Event.isSleep] at h
      · have h := pollLoop_get_key env.poll
          (LABELLED_PREFIX ++ env.uuid ++ ".jpg") MAX_POLLING_ATTEMPTS 0
          b k hmp
        rw [h.2, String.append_assoc]

/-- Claim C3 witness: in a full successful run, the polled key is
literally the labelled prefix followed by the uuid and ".jpg". -/
theorem C3_key_derivation_witness :
    Event.getObject BUCKET_NAME
      "image/labelled/123e4567-e89b-12d3-a456-426614174000.jpg" ∈
      (process_image envProcOk smallBytes).1 ∧
    "image/labelled/123e4567-e89b-12d3-a456-426614174000.jpg" =
      LABELLED_PREFIX ++ (envProcOk.uuid ++ ".jpg") := by
  refine ⟨by decide, ?_⟩
  obtain ⟨ident, hident, hpre, hget⟩ := C3_key_derivation envProcOk smallBytes
  rw [hident] at hget
  exact hget BUCKET_NAME _ (by decide)

/-- Claim C6: `process_image` runs validate, key generation, upload, poll,
analyze in that order and short-circuits: a failed validation returns the
validation message with an empty trace (no upload, no poll); a failed
upload returns its failure message with no fetch in the trace; a poll
timeout returns the timeout message with no detection results, the trace
being the upload events followed by the poll events. -/
theorem C6_pipeline_shortcircuit (env : ProcessEnv) (d : Bytes) :
    ((validate_image env.pil d).1 = false →
      process_image env d =
        ([], false, none, none, (validate_image env.pil d).2)) ∧
    ((validate_image env.pil d).1 = true →
      (∀ i, i < MAX_RETRIES → uploadHit env.upload i = false) →
      (process_image env d).2 =
        (false, none, none,
          "Failed to upload image after multiple attempts") ∧
      countGets (process_image env d).1 = 0) ∧
    ((validate_image env.pil d).1 = true →
      (upload_to_s3 env.upload d
        (UNLABELLED_PREFIX ++ env.uuid ++ ".jpg")).2.1 = true →
      (∀ i, i < MAX_POLLING_ATTEMPTS → pollHit env.poll i = false) →
      (process_image env d).2 =
        (false, none, none, "Timeout waiting for results") ∧
      (process_image env d).1 =
        (upload_to_s3 env.upload d
          (UNLABELLED_PREFIX ++ env.uuid ++ ".jpg")).1 ++
        (poll_for_result env.poll
          (LABELLED_PREFIX ++ env.uuid ++ ".jpg")).1) := by
  refine ⟨fun hv => ?_, fun hv hmiss => ?_, fun hv hus hpmiss => ?_⟩
  · simp [process_image, hv]
  · have hu := uploadLoop_miss env.upload
      (UNLABELLED_PREFIX ++ env.uuid ++ ".jpg") MAX_RETRIES 0
      (fun i _ h2 => hmiss i (by omega))
    have hu1 : (upload_to_s3 env.upload d
        (UNLABELLED_PREFIX ++ env.uuid ++ ".jpg")).2.1 = false := by
      rw [upload_to_s3, hu.1]
    have hu2 : (upload_to_s3 env.upload d
        (UNLABELLED_PREFIX ++ env.uuid ++ ".jpg")).2.2 =
        "Failed to upload image after multiple attempts" := by
      rw [upload_to_s3, hu.1]
    constructor
    · simp [process_image, hv, hu1, hu2]
    · simp [process_image, hv, hu1]
      exact uploadLoop_gets_zero env.upload
        (UNLABELLED_PREFIX ++ env.uuid ++ ".jpg") MAX_RETRIES 0
  · have hp := pollLoop_miss env.poll
      (LABELLED_PREFIX ++ env.uuid ++ ".jpg") MAX_POLLING_ATTEMPTS 0
      (fun i _ h2 => hpmiss i (by omega))
    have hp1 : (poll_for_result env.poll
        (LABELLED_PREFIX ++ env.uuid ++ ".jpg")).2.1 = none := by
      rw [poll_for_result, hp.1]
    have hp2 : (poll_for_result env.poll
        (LABELLED_PREFIX ++ env.uuid ++ ".jpg")).2.2 =
        "Timeout waiting for results" := by
      rw [poll_for_result, hp.1]
    constructor
    · simp [process_image, hv, hus, hp1, hp2]
    · simp [process_image, hv, hus, hp1]

/-- Claim C6 witness: an undecodable submission stops before any upload;
a world of 200-status uploads stops with the upload message; a world where
the labelled object never appears stops with the timeout message and no
results. -/
theorem C6_pipeline_shortcircuit_witness :
    process_image envProcBadImage smallBytes =
      ([], false, none, none,
        "Invalid image file: cannot identify image file") ∧
    (process_image envProcUploadFail smallBytes).2 =
      (false, none, none, "Failed to upload image after multiple attempts") ∧
    (process_image envProcTimeout smallBytes).2 =
      (false, none, none, "Timeout waiting for results") := by
  refine ⟨?_, ?_, ?_⟩
  · exact (C6_pipeline_shortcircuit envProcBadImage smallBytes).1 rfl
  · exact ((C6_pipeline_shortcircuit envProcUploadFail smallBytes).2.1 rfl
      (fun i _ => rfl)).1
  · exact ((C6_pipeline_shortcircuit envProcTimeout smallBytes).2.2 rfl rfl
      (fun i _ => rfl)).1

/-- Claim C10: `validate_image` is total over arbitrary byte strings and
checks size before decoding: any input over the 10 MB limit is rejected
with the size message whatever the decoder would do (even if it is a valid
image), any input that fails to decode or verify is rejected with the
invalid-image message, and everything else is accepted. -/
theorem C10_validate_total (d : Bytes) (pil pil2 : Bytes → Option String) :
    (MAX_FILE_SIZE_MB * 1024 * 1024 < d.length →
      validate_image pil d = (false, "File size exceeds 10MB limit") ∧
      validate_image pil d = validate_image pil2 d) ∧
    (∀ e, d.length ≤ MAX_FILE_SIZE_MB * 1024 * 1024 → pil d = some e →
      validate_image pil d = (false, "Invalid image file: " ++ e)) ∧
    (d.length ≤ MAX_FILE_SIZE_MB * 1024 * 1024 → pil d = none →
      validate_image pil d = (true, "Valid image")) := by
  refine ⟨fun hgt => ?_, fun e hle hsome => ?_, fun hle hnone => ?_⟩
  · constructor
    · simp [validate_image, hgt]
      rfl
    · simp [validate_image, hgt]
  · simp [validate_image, Nat.not_lt.mpr hle, hsome]
  · simp [validate_image, Nat.not_lt.mpr hle, hnone]

/-- Claim C10 witness: a 10 MB + 1 byte input is rejected for size even
though the decoder accepts it; an undecodable small input is rejected as
invalid; a decodable small input is accepted. -/
theorem C10_validate_total_witness :
    validate_image pilAccepts bigBytes =
      (false, "File size exceeds 10MB limit") ∧
    validate_image pilRejects smallBytes =
      (false, "Invalid image file: cannot identify image file") ∧
    validate_image pilAccepts smallBytes = (true, "Valid image") := by
  have hlen : MAX_FILE_SIZE_MB * 1024 * 1024 < bigBytes.length := by
    simp [bigBytes]
  exact ⟨((C10_validate_total bigBytes pilAccepts pilAccepts).1 hlen).1,
    (C10_validate_total smallBytes pilRejects pilRejects).2.1
      "cannot identify image file" (by decide) rfl,
    (C10_validate_total smallBytes pilAccepts pilAccepts).2.2
      (by decide) rfl⟩

end App
